import Mathlib

/-!
Verification of the proxy server core (`src/server.rs` of the forproxy
repository) against its natural-language specification.

The embedding below translates the request-handling pipeline of
`Server::handle`, the CONNECT tunnel state machine of
`Server::handle_connect`, the traffic-detail endpoint
`Server::handle_traffic_info`, and the `decompress` helper into pure Lean
functions.  Byte streams are `List Nat` (each element a byte value),
header maps are ordered association lists, and the asynchronous I/O
boundaries (upstream request, TLS handshake, TCP connect, the inner HTTP
server) are abstracted as `Except`-valued parameters bundled in an
environment record, so that the control flow of the source is preserved
exactly while the outside world stays a parameter.

The `Recorder`, `State`, `Rewind` and filter modules are declared in the
crate but their files are outside the verified sources; they are modelled
from the specification (sections 4.1, 4.4, 4.5) and marked as such.
-/

namespace Forproxy

/-- A byte string: each element is one byte value (0..255). -/
abbrev ByteSeq := List Nat

/-- An ordered header multimap, as carried on the wire. -/
abbrev Headers := List (String × String)

/-- Byte view of an ASCII string; models `str::as_bytes` for the ASCII
strings that occur in the protocol constants and bodies used here. -/
def strBytes (s : String) : ByteSeq :=
  s.data.map Char.toNat

/-- Models Rust `str::starts_with` on strings (kernel-friendly form). -/
def strStarts (s p : String) : Bool :=
  p.data.isPrefixOf s.data

/-- Models `str::strip_prefix` after a successful `starts_with` test:
drops the matched leading characters. -/
def strDropLead (s : String) (n : Nat) : String :=
  String.mk (s.data.drop n)

/-- Models `url.split_once('?')`: the part of the URL before the first
question mark (the whole URL when none is present).  This is the `path`
binding of `Server::handle`. -/
def pathOf (url : String) : String :=
  String.mk (url.data.takeWhile (fun ch => ch ≠ '?'))

/-- Models `str::parse::<u64>` as used by `handle_traffic_info`:
an optional leading plus sign, then at least one ASCII digit, with the
value bounded by the machine-integer range; anything else is a parse
error (`None` after `.ok()`). -/
def parse_u64 (s : String) : Option Nat :=
  let body := if strStarts s "+" then strDropLead s 1 else s
  if body.length ≠ 0 ∧ body.data.all Char.isDigit then
    let n := body.data.foldl (fun acc ch => acc * 10 + (ch.toNat - 48)) 0
    if n < 2 ^ 64 then some n else none
  else none

/-- The web UI path root, `WEBUI_PREFIX` in the source. -/
def WEBUI_ROOT : String := "/__proxyfor__"

/-- The certificate-install site URL, `CERT_SITE_URL` in the source. -/
def CERT_SITE_URL : String := "http://proxyfor.local/"

/-- Modelled from the spec: the transaction record (`Traffic`) held by a
`Recorder` (the recorder module is outside the verified sources).  Fields
follow spec section 3: URI and method set at creation, every other field
optional until its setter runs, and an ordered error list. -/
structure Traffic where
  uri : String
  method : String
  req_headers : Option Headers := none
  req_body : Option ByteSeq := none
  res_status : Option Nat := none
  res_headers : Option Headers := none
  res_body : Option ByteSeq := none
  errors : List String := []
deriving Repr, DecidableEq

/-- Modelled from the spec (section 4.5): the `Recorder` accumulating one
transaction, with the sticky `dump` flag that every `control_dump` call
conjoins into. -/
structure Recorder where
  traffic : Traffic
  dump : Bool := true
deriving Repr, DecidableEq

/-- Constructor `Recorder::new(uri, method)`. -/
def Recorder.new (uri method : String) : Recorder :=
  { traffic := { uri := uri, method := method } }

/-- Setter `Recorder::control_dump`: ANDs the argument into the sticky flag. -/
def Recorder.control_dump (r : Recorder) (b : Bool) : Recorder :=
  { r with dump := r.dump && b }

/-- Setter `Recorder::set_req_headers`. -/
def Recorder.set_req_headers (r : Recorder) (hs : Headers) : Recorder :=
  { r with traffic := { r.traffic with req_headers := some hs } }

/-- Setter `Recorder::set_req_body`. -/
def Recorder.set_req_body (r : Recorder) (b : ByteSeq) : Recorder :=
  { r with traffic := { r.traffic with req_body := some b } }

/-- Setter `Recorder::set_res_status`. -/
def Recorder.set_res_status (r : Recorder) (s : Nat) : Recorder :=
  { r with traffic := { r.traffic with res_status := some s } }

/-- Setter `Recorder::set_res_headers`. -/
def Recorder.set_res_headers (r : Recorder) (hs : Headers) : Recorder :=
  { r with traffic := { r.traffic with res_headers := some hs } }

/-- Setter `Recorder::set_res_body` (the decoded body, per spec section 4.5). -/
def Recorder.set_res_body (r : Recorder) (b : ByteSeq) : Recorder :=
  { r with traffic := { r.traffic with res_body := some b } }

/-- Setter `Recorder::add_error`: appends one error string in order. -/
def Recorder.add_error (r : Recorder) (e : String) : Recorder :=
  { r with traffic := { r.traffic with errors := r.traffic.errors ++ [e] } }

/-- Finalizer `Recorder::take_traffic`: yields the immutable record. -/
def Recorder.take_traffic (r : Recorder) : Traffic :=
  r.traffic

/-- Modelled from the spec (section 4.5): the `State` store, an ordered
collection of completed records; `add` assigns ids `1..N` in arrival
order (the broadcast side is not needed by the claims below). -/
structure State where
  traffics : List Traffic := []
deriving Repr, DecidableEq

/-- Operation `State::add_trafic` (source spelling): appends the finished record;
its id is its 1-based position. -/
def State.add_trafic (s : State) (t : Traffic) : State :=
  { traffics := s.traffics ++ [t] }

/-- Operation `State::get_traffic(id)`: the record with the given 1-based id, or
`none` when no such record exists. -/
def State.get_traffic (s : State) (id : Nat) : Option Traffic :=
  if id = 0 then none else s.traffics.get? (id - 1)

/-- A downstream HTTP response as built by the handler: hyper's
`Response::default()` is status 200 with no headers and an empty body. -/
structure Response where
  status : Nat := 200
  headers : Headers := []
  body : ByteSeq := []
deriving Repr, DecidableEq

/-- Operation `HeaderMap::insert`: replaces any existing value for the name, else
appends (header names are compared in canonical lower-case form). -/
def insertHeader (hs : Headers) (k v : String) : Headers :=
  if hs.any (fun p => p.1 = k) then
    hs.map (fun p => if p.1 = k then (k, v) else p)
  else hs ++ [(k, v)]

/-- Operation `HeaderMap::get`: the first value stored for the name. -/
def firstHeader (hs : Headers) (k : String) : Option String :=
  (hs.find? (fun p => p.1 = k)).map Prod.snd

/-- The `encoding` loop of `Server::handle` (lines 187-195): iterating
over all response headers and overwriting on each `content-encoding`
occurrence leaves the last such value (or the initial `""`). -/
def contentEncodingOf (hs : Headers) : String :=
  hs.foldl (fun acc p => if p.1 = "content-encoding" then p.2 else acc) ""

/-- The free function `set_res_body` of `server.rs`: sets the
`content-length` header from the body length and installs the body. -/
def set_res_body (res : Response) (body : String) : Response :=
  let b := strBytes body
  { res with
      headers := insertHeader res.headers "content-length" (toString b.length),
      body := b }

/-- The external compression codecs (the `async_compression` library,
out of scope per the spec): each decoder maps input bytes to decoded
bytes or a failure. -/
structure Codecs where
  deflate : ByteSeq → Except String ByteSeq
  gzip : ByteSeq → Except String ByteSeq
  br : ByteSeq → Except String ByteSeq

/-- The `decompress` function of `server.rs`: dispatch on the encoding
label, turning a codec failure into `none` via `.ok()`; every label
other than the three recognized ones yields `none`. -/
def decompress (c : Codecs) (data : ByteSeq) (encoding : String) : Option ByteSeq :=
  if encoding = "deflate" then (c.deflate data).toOption
  else if encoding = "gzip" then (c.gzip data).toOption
  else if encoding = "br" then (c.br data).toOption
  else none

/-- Handler `Server::handle_traffic_info`: parse the id path segment, look the
record up, and answer pretty-printed JSON or plain 404.  The JSON
serializer (`serde_json`) is a parameter. -/
def handle_traffic_info (toJson : Traffic → String) (s : State) (id : String) : Response :=
  match (parse_u64 id).bind s.get_traffic with
  | some traffic =>
      let res := set_res_body {} (toJson traffic)
      let hs := insertHeader res.headers "content-type" "application/json; charset=UTF-8"
      let hs := insertHeader hs "cache-control" "no-cache"
      { res with headers := hs }
  | none => { status := 404 }

/-- Modelled from the spec (section 4.1): `Rewind::new_buffered` wraps a
stream with a held byte window; the visible byte stream re-emits the
window before the remaining inner bytes. -/
def Rewind.new_buffered (inner : ByteSeq) (window : ByteSeq) : ByteSeq :=
  window ++ inner

/-- One hex digit, upper case, as produced by Rust's `{:02X?}`. -/
def hexDigit (n : Nat) : Char :=
  if n < 10 then Char.ofNat (48 + n) else Char.ofNat (55 + n)

/-- A byte in two upper-case hex digits. -/
def hexByte (b : Nat) : String :=
  String.mk [hexDigit (b / 16 % 16), hexDigit (b % 16)]

/-- Debug rendering of a byte slice, as in the unknown-protocol error
message `format!("... '{:02X?}' ...")`. -/
def hexBytes (bs : ByteSeq) : String :=
  "[" ++ String.intercalate ", " (bs.map hexByte) ++ "]"

/-- The asynchronous boundaries of the upgraded-tunnel future of
`Server::handle_connect`, given as outcomes: the `hyper` upgrade, the
bytes the client sends before closing its side, the certificate
authority, the TLS accept, the two inner HTTP serves, the raw TCP
connect and the bidirectional copy. -/
structure TunnelEnv where
  upgrade : Except String Unit
  clientBytes : ByteSeq
  genServerConfig : String → Except String Unit
  tlsAccept : Except String Unit
  serveHttp : Except String Unit
  serveHttps : Except String Unit
  tcpConnect : String → Except String Unit
  copyBidirectional : Except String Unit

/-- Where the tunnel future ended up: the three classification branches
of the 4-byte sniff, or an abort before classification. -/
inductive TunnelBranch where
  | httpServe
  | tlsIntercept
  | rawTunnel
  | peekFailed
  | upgradeFailed
deriving Repr, DecidableEq

/-- Observable outcome of the tunnel future: the branch taken, the
scheme the inner HTTP server was started with (when it was started), the
byte stream visible to the next protocol handler after rewinding, the
authority handed to `TcpStream::connect` (when the opaque branch ran),
whether the bidirectional copy ran, and the recorder with accumulated
errors. -/
structure TunnelResult where
  branch : TunnelBranch
  scheme : Option String := none
  rewound : Option ByteSeq := none
  tcpTarget : Option String := none
  copied : Bool := false
  recorder : Recorder
deriving Repr, DecidableEq

/-- The classification body of the tunnel future (`server.rs` lines
344-400), entered once the 4-byte window has been read in full: compare
the window with `"GET "`, then its first two bytes with `0x16 0x03`,
else treat the stream as an opaque protocol. -/
def classify_and_run (env : TunnelEnv) (authority : String) (r : Recorder)
    (window : ByteSeq) (upgraded : ByteSeq) : TunnelResult :=
  if window = strBytes "GET " then
    let r := match env.serveHttp with
      | .ok _ => r
      | .error e => r.add_error ("Websocket connect error: " ++ e)
    { branch := .httpServe, scheme := some "http", rewound := some upgraded, recorder := r }
  else if window.take 2 = [0x16, 0x03] then
    match env.genServerConfig authority with
    | .error e =>
        { branch := .tlsIntercept, rewound := some upgraded,
          recorder := r.add_error ("Failed to build server config: " ++ e) }
    | .ok _ =>
        match env.tlsAccept with
        | .error e =>
            { branch := .tlsIntercept, rewound := some upgraded,
              recorder := r.add_error ("Failed to establish TLS Connection: " ++ e) }
        | .ok _ =>
            let r := match env.serveHttps with
              | .ok _ => r
              | .error e =>
                  if strStarts e "error shutting down connection" then r
                  else r.add_error ("HTTPS connect error: " ++ e)
            { branch := .tlsIntercept, scheme := some "https", rewound := some upgraded,
              recorder := r }
  else
    let r := r.add_error
      ("Unknown protocol, read " ++ hexBytes window ++ " from upgraded connection")
    match env.tcpConnect authority with
    | .error e =>
        { branch := .rawTunnel, rewound := some upgraded, tcpTarget := some authority,
          recorder := r.add_error ("Failed to connect to " ++ authority ++ ": " ++ e) }
    | .ok _ =>
        let r := match env.copyBidirectional with
          | .ok _ => r
          | .error e =>
              r.add_error ("Failed to tunnel unknown protocol to " ++ authority ++ ": " ++ e)
        { branch := .rawTunnel, rewound := some upgraded, tcpTarget := some authority,
          copied := true, recorder := r }

/-- The spawned tunnel future of `Server::handle_connect` (lines
323-406): await the upgrade, `read_exact` a 4-byte window (which fails
with `UnexpectedEof` when the client closes before 4 bytes arrive),
rewind the window onto the stream, then classify.  Errors go to the
`ErrorRecorder` wrapping the recorder (modelled from the spec: the
wrapper delegates `add_error` and finalizes the record on drop). -/
def handle_upgraded (env : TunnelEnv) (authority : String) (r : Recorder) : TunnelResult :=
  match env.upgrade with
  | .error e =>
      { branch := .upgradeFailed, recorder := r.add_error ("Upgrade error: " ++ e) }
  | .ok _ =>
      if env.clientBytes.length < 4 then
        { branch := .peekFailed,
          recorder := r.add_error "Failed to read from upgraded connection: early eof" }
      else
        let window := env.clientBytes.take 4
        let upgraded := Rewind.new_buffered (env.clientBytes.drop 4) window
        classify_and_run env authority r window upgraded

/-- The synchronous part of `Server::handle_connect` (lines 310-322 and
408-409): no authority in the request target means a plain `400` and no
upgrade; otherwise the tunnel future is spawned for the authority and
the default (`200`, empty body) response is returned at once. -/
def handle_connect (authority : Option String) (r : Recorder) :
    Response × Option (String × Recorder) :=
  match authority with
  | none => ({ status := 400 }, none)
  | some a => ({}, some (a, r))

/-- An inbound HTTP request as seen by `Server::handle`: the
request-target string, method, headers, the outcome of collecting the
body, and the authority component of the target (used by CONNECT). -/
structure Req where
  uri : String
  method : String
  headers : Headers := []
  body : Except String ByteSeq := .ok []
  authority : Option String := none

/-- The upstream response as the client library delivers it: status,
headers, and the outcome of collecting the full body (`collect` may fail
on a truncated body). -/
structure UpstreamResult where
  status : Nat
  headers : Headers
  body : Except String ByteSeq

/-- The `Server` configuration fields the mediator reads, with the
filter module (outside the verified sources) as function parameters:
`is_match_title` over the title-filter list and `is_match_type` over the
MIME-filter list (spec section 4.4), plus the compression codecs. -/
structure ServerCfg where
  reverse_proxy_url : Option String
  filters : List String
  mime_filters : List String
  is_match_title : List String → String → Bool
  is_match_type : List String → String → Bool
  codecs : Codecs

/-- The target-URL resolution of `Server::handle` (lines 65-80). -/
inductive UrlResolution where
  | ok (url : String)
  | noReverse
deriving Repr, DecidableEq

/-- Lines 65-80: an absolute or UI-prefixed target is used verbatim;
an origin-form target is composed onto the reverse-proxy base (`/`
mapping to the base itself); with no base configured the transaction
fails with the fixed error string. -/
def resolve_url (reverse_proxy_url : Option String) (req_uri : String) : UrlResolution :=
  if !(strStarts req_uri "/") || strStarts req_uri WEBUI_ROOT then
    .ok req_uri
  else
    match reverse_proxy_url with
    | some base_url => .ok (if req_uri = "/" then base_url else base_url ++ req_uri)
    | none => .noReverse

/-- Helper `Server::internal_server_error` (lines 449-458): append the error to
the recorder, finalize it into the store (`take_recorder`), and set the
response status to 500.  The response body is left as it was (the
default empty body on every call site of this function). -/
def internal_server_error (st : State) (res : Response) (error : String)
    (r : Recorder) : Response × State :=
  let r := r.add_error error
  let st := st.add_trafic r.take_traffic
  ({ res with status := 500 }, st)

/-- The observable outcome of the forwarding tail of `Server::handle`
(lines 125-222): the resolved upstream URL, whether the HTTPS connector
was selected, the headers forwarded upstream (all but `host`), the
downstream response, and the store after finalization. -/
structure ForwardTrace where
  url : String
  https_connector : Bool
  upstream_req_headers : Headers
  res : Response
  st : State
deriving Repr, DecidableEq

/-- Lines 125-222 of `Server::handle`: record request headers and the
collected body, forward to the upstream (builder or connection failures
arrive as `.error`), AND the MIME filter into the dump flag, mirror
status and headers onto the downstream response (tracking the last
`content-encoding`), collect the upstream body, record status, headers
and the decompressed body (only when non-empty), finalize the record,
and return the raw upstream body downstream. -/
def handle_forward (cfg : ServerCfg) (st : State) (r : Recorder) (req : Req)
    (url : String) (upstream : Except String UpstreamResult) : ForwardTrace :=
  let https := strStarts url "https://"
  let fwd_headers := req.headers.filter (fun p => p.1 ≠ "host")
  let r := r.set_req_headers req.headers
  match req.body with
  | .error e =>
      let pr := internal_server_error st {} e r
      { url := url, https_connector := https, upstream_req_headers := fwd_headers,
        res := pr.1, st := pr.2 }
  | .ok req_body =>
      let r := r.set_req_body req_body
      match upstream with
      | .error e =>
          let pr := internal_server_error st {} e r
          { url := url, https_connector := https, upstream_req_headers := fwd_headers,
            res := pr.1, st := pr.2 }
      | .ok u =>
          let r := match firstHeader u.headers "content-type" with
            | some v => r.control_dump (cfg.is_match_type cfg.mime_filters v)
            | none => r
          let encoding := contentEncodingOf u.headers
          let res : Response :=
            { status := u.status,
              headers := u.headers.foldl (fun hs p => insertHeader hs p.1 p.2) [] }
          match u.body with
          | .error e =>
              let pr := internal_server_error st res e r
              { url := url, https_connector := https, upstream_req_headers := fwd_headers,
                res := pr.1, st := pr.2 }
          | .ok proxy_res_body =>
              let r := (r.set_res_status u.status).set_res_headers u.headers
              let r := if proxy_res_body ≠ [] then
                  r.set_res_body
                    ((decompress cfg.codecs proxy_res_body encoding).getD proxy_res_body)
                else r
              let st := st.add_trafic r.take_traffic
              { url := url, https_connector := https, upstream_req_headers := fwd_headers,
                res := { res with body := proxy_res_body }, st := st }

/-- Where `Server::handle` sends a request: an immediate response (the
missing-reverse-proxy failure), a dispatch to the certificate-install
site or the web UI handlers (with the stripped sub-path), the CONNECT
handshake (response, spawned tunnel), or the forwarding tail. -/
inductive HandleResult where
  | response (res : Response) (st : State)
  | certSite (path : String) (st : State)
  | webui (path : String) (st : State)
  | connectRes (res : Response) (tunnel : Option (String × Recorder)) (st : State)
  | forward (t : ForwardTrace)
deriving DecidableEq

/-- The state store after `Server::handle` finished its synchronous
work. -/
def HandleResult.stateOf : HandleResult → State
  | .response _ st => st
  | .certSite _ st => st
  | .webui _ st => st
  | .connectRes _ _ st => st
  | .forward t => t.st

/-- Entry point `Server::handle` (lines 58-123): resolve the target URL (finalizing
a failed record when no reverse-proxy base exists), dispatch
control-surface paths, create the `Recorder` from the original
request-target `req_uri` (line 116), AND the title filter into the dump
flag, send CONNECT to the handshake (with the extra filter-enablement
dump check), and everything else to the forwarding tail. -/
def handle (cfg : ServerCfg) (st : State) (req : Req)
    (upstream : Except String UpstreamResult) : HandleResult :=
  match resolve_url cfg.reverse_proxy_url req.uri with
  | .noReverse =>
      let (res, st) :=
        internal_server_error st {} "No reserver proxy url" (Recorder.new req.uri req.method)
      .response res st
  | .ok url =>
      let path := pathOf url
      if strStarts path CERT_SITE_URL then
        .certSite (strDropLead path CERT_SITE_URL.length) st
      else if strStarts path WEBUI_ROOT then
        .webui (strDropLead path WEBUI_ROOT.length) st
      else
        let r := Recorder.new req.uri req.method
        let r := r.control_dump (cfg.is_match_title cfg.filters (req.method ++ " " ++ url))
        if req.method = "CONNECT" then
          let r := r.control_dump (!cfg.filters.isEmpty || !cfg.mime_filters.isEmpty)
          let (res, tunnel) := handle_connect req.authority r
          .connectRes res tunnel st
        else
          .forward (handle_forward cfg st r req url upstream)

/-- The resolved upstream URL when the request went to the forwarding
tail, `none` otherwise. -/
def HandleResult.forwardUrl : HandleResult → Option String
  | .forward t => some t.url
  | _ => none

/-- Modelled from the spec (section 3): the serialization-safe head
projection of a record, exposing id, method, URI, status and MIME
type for the list and subscribe views. -/
structure TrafficHead where
  id : Nat
  method : String
  uri : String
  status : Option Nat
  mime : Option String
deriving Repr, DecidableEq

/-- The head of a record with its assigned id. -/
def Traffic.head (t : Traffic) (id : Nat) : TrafficHead :=
  { id := id, method := t.method, uri := t.uri, status := t.res_status,
    mime := firstHeader (t.res_headers.getD []) "content-type" }

/-- Modelled from the spec (section 4.5): `State::list`, the ordered
heads of all stored records, ids `1..N` in arrival order. -/
def State.list (s : State) : List TrafficHead :=
  (s.traffics.zip (List.range s.traffics.length)).map (fun p => p.1.head (p.2 + 1))

/-- Codecs whose decoders succeed with the input unchanged (a concrete
instantiation for witnesses). -/
def okCodecs : Codecs := ⟨fun b => .ok b, fun b => .ok b, fun b => .ok b⟩

/-- Codecs whose gzip decoder rejects its input and whose brotli decoder
answers a fixed decoded value (a concrete instantiation exercising the
failure fallback). -/
def badCodecs : Codecs :=
  ⟨fun _ => .error "truncated", fun _ => .error "truncated", fun _ => .ok [104, 105]⟩

/-- Codecs whose gzip decoder answers a decoded value different from its
input (to observe recording versus pass-through). -/
def gzCodecs : Codecs :=
  ⟨fun _ => .error "na", fun _ => .ok [9], fun _ => .error "na"⟩

/-- A server with no reverse-proxy base and empty filter lists. -/
def cfgNone : ServerCfg :=
  ⟨none, [], [], fun _ _ => true, fun _ _ => true, okCodecs⟩

/-- A server with reverse-proxy base `http://example.test`. -/
def cfgBase : ServerCfg :=
  ⟨some "http://example.test", [], [], fun _ _ => true, fun _ _ => true, okCodecs⟩

/-- A server whose gzip codec decodes to `[9]`. -/
def cfgGz : ServerCfg :=
  ⟨none, [], [], fun _ _ => true, fun _ _ => true, gzCodecs⟩

/-- A tunnel whose client closes after sending only the three bytes
`"GET"`. -/
def envShort : TunnelEnv :=
  ⟨.ok (), [71, 69, 84], fun _ => .ok (), .ok (), .ok (), .ok (), fun _ => .ok (), .ok ()⟩

/-- A tunnel whose client sends `"GET "` and whose inner plaintext HTTP
serve fails with the connection-shutdown error text. -/
def envGetShutdown : TunnelEnv :=
  ⟨.ok (), strBytes "GET ", fun _ => .ok (), .ok (),
    .error "error shutting down connection", .ok (), fun _ => .ok (), .ok ()⟩

/-- A tunnel whose client sends a TLS ClientHello header and whose inner
HTTPS serve fails with the connection-shutdown error text. -/
def envTlsShutdown : TunnelEnv :=
  ⟨.ok (), [22, 3, 1, 0], fun _ => .ok (), .ok (), .ok (),
    .error "error shutting down connection", fun _ => .ok (), .ok ()⟩

/-- A tunnel whose client sends bytes that are neither `"GET "` nor a
TLS header (an opaque protocol). -/
def envRaw : TunnelEnv :=
  ⟨.ok (), [5, 0, 0, 0], fun _ => .ok (), .ok (), .ok (), .ok (), fun _ => .ok (), .ok ()⟩

/-- A fresh recorder for a tunneled transaction. -/
def r0 : Recorder := Recorder.new "h:80" "CONNECT"

/-- The branch of the classification body is a pure function of the
4-byte window. -/
theorem classify_branch (env : TunnelEnv) (a : String) (r : Recorder)
    (w u : ByteSeq) :
    (classify_and_run env a r w u).branch =
      (if w = strBytes "GET " then TunnelBranch.httpServe
       else if w.take 2 = [0x16, 0x03] then TunnelBranch.tlsIntercept
       else TunnelBranch.rawTunnel) := by
  unfold classify_and_run
  by_cases h1 : w = strBytes "GET "
  · simp [h1]
  · by_cases h2 : w.take 2 = [0x16, 0x03]
    · simp only [h1, h2, if_false, if_true, if_neg, if_pos]
      cases env.genServerConfig a with
      | error e => simp [h1, h2]
      | ok _ =>
          cases env.tlsAccept with
          | error e => simp [h1, h2]
          | ok _ => simp [h1, h2]
    · simp only [h1, h2]
      cases env.tcpConnect a with
      | error e => simp [h1, h2]
      | ok _ => simp [h1, h2]

/-- The rewound stream handed to the next protocol handler is the same
in every classification branch. -/
theorem classify_rewound (env : TunnelEnv) (a : String) (r : Recorder)
    (w u : ByteSeq) :
    (classify_and_run env a r w u).rewound = some u := by
  unfold classify_and_run
  by_cases h1 : w = strBytes "GET "
  · simp [h1]
  · by_cases h2 : w.take 2 = [0x16, 0x03]
    · simp only [h1, h2]
      cases env.genServerConfig a with
      | error e => simp [h1, h2]
      | ok _ =>
          cases env.tlsAccept with
          | error e => simp [h1, h2]
          | ok _ => simp [h1, h2]
    · simp only [h1, h2]
      cases env.tcpConnect a with
      | error e => simp [h1, h2]
      | ok _ => simp [h1, h2]

/-- The TCP target of the classification body: the authority in the
opaque branch, nothing elsewhere. -/
theorem classify_tcpTarget (env : TunnelEnv) (a : String) (r : Recorder)
    (w u : ByteSeq) :
    (classify_and_run env a r w u).tcpTarget =
      (if w = strBytes "GET " then none
       else if w.take 2 = [0x16, 0x03] then none else some a) := by
  unfold classify_and_run
  by_cases h1 : w = strBytes "GET "
  · simp [h1]
  · by_cases h2 : w.take 2 = [0x16, 0x03]
    · simp only [h1, h2]
      cases env.genServerConfig a with
      | error e => simp [h1, h2]
      | ok _ =>
          cases env.tlsAccept with
          | error e => simp [h1, h2]
          | ok _ => simp [h1, h2]
    · simp only [h1, h2]
      cases env.tcpConnect a with
      | error e => simp [h1, h2]
      | ok _ => simp [h1, h2]

/-- Sending the plaintext window starts the inner server with scheme
`http`. -/
theorem classify_scheme_http (env : TunnelEnv) (a : String) (r : Recorder)
    (w u : ByteSeq) (h1 : w = strBytes "GET ") :
    (classify_and_run env a r w u).scheme = some "http" := by
  simp [classify_and_run, h1]

/-- Sending a TLS window with a working certificate authority and TLS
accept starts the inner server with scheme `https`. -/
theorem classify_scheme_https (env : TunnelEnv) (a : String) (r : Recorder)
    (w u : ByteSeq) (h1 : w ≠ strBytes "GET ") (h2 : w.take 2 = [0x16, 0x03])
    (hg : env.genServerConfig a = .ok ()) (ht : env.tlsAccept = .ok ()) :
    (classify_and_run env a r w u).scheme = some "https" := by
  simp [classify_and_run, h1, h2, hg, ht]

/-- When the opaque branch connects, the bidirectional copy runs. -/
theorem classify_copied (env : TunnelEnv) (a : String) (r : Recorder)
    (w u : ByteSeq) (h1 : w ≠ strBytes "GET ") (h2 : w.take 2 ≠ [0x16, 0x03])
    (hc : env.tcpConnect a = .ok ()) :
    (classify_and_run env a r w u).copied = true := by
  simp [classify_and_run, h1, h2, hc]

/-- With the upgrade done and at least four client bytes available, the
tunnel future runs the classification body on the 4-byte window, with
the window rewound onto the remaining stream. -/
theorem handle_upgraded_peek_ok (env : TunnelEnv) (a : String) (r : Recorder)
    (hup : env.upgrade = .ok ()) (hlen : 4 ≤ env.clientBytes.length) :
    handle_upgraded env a r =
      classify_and_run env a r (env.clientBytes.take 4)
        (Rewind.new_buffered (env.clientBytes.drop 4) (env.clientBytes.take 4)) := by
  unfold handle_upgraded
  rw [hup]
  simp [Nat.not_lt.mpr hlen]

/-- With the upgrade done but fewer than four client bytes available,
the `read_exact` peek fails and the tunnel aborts with a recorded read
error. -/
theorem handle_upgraded_peek_short (env : TunnelEnv) (a : String) (r : Recorder)
    (hup : env.upgrade = .ok ()) (hlen : env.clientBytes.length < 4) :
    handle_upgraded env a r =
      { branch := .peekFailed,
        recorder := r.add_error "Failed to read from upgraded connection: early eof" } := by
  unfold handle_upgraded
  rw [hup]
  simp [hlen]

/-- C1: for every CONNECT tunnel whose upgrade completed and whose
client supplied the 4-byte window, the window determines the branch:
exactly the bytes of `"GET "` selects plaintext HTTP serving with scheme
`http`; a first-two-byte 0x16 0x03 selects TLS interception (which
serves with scheme `https` once the CA-minted config and TLS accept
succeed); any other window selects the opaque branch, which opens a TCP
connection to the tunnel authority and runs the bidirectional copy. -/
theorem connect_peek_classification (env : TunnelEnv) (a : String) (r : Recorder)
    (hup : env.upgrade = Except.ok ()) (hlen : 4 ≤ env.clientBytes.length) :
    ((handle_upgraded env a r).branch = TunnelBranch.httpServe ↔
        env.clientBytes.take 4 = strBytes "GET ")
    ∧ ((handle_upgraded env a r).branch = TunnelBranch.tlsIntercept ↔
        (env.clientBytes.take 4 ≠ strBytes "GET "
          ∧ (env.clientBytes.take 4).take 2 = [0x16, 0x03]))
    ∧ ((handle_upgraded env a r).branch = TunnelBranch.rawTunnel ↔
        (env.clientBytes.take 4 ≠ strBytes "GET "
          ∧ (env.clientBytes.take 4).take 2 ≠ [0x16, 0x03]))
    ∧ (env.clientBytes.take 4 = strBytes "GET " →
        (handle_upgraded env a r).scheme = some "http")
    ∧ (env.clientBytes.take 4 ≠ strBytes "GET " →
        (env.clientBytes.take 4).take 2 = [0x16, 0x03] →
        env.genServerConfig a = .ok () → env.tlsAccept = .ok () →
        (handle_upgraded env a r).scheme = some "https")
    ∧ ((handle_upgraded env a r).branch = TunnelBranch.rawTunnel →
        (handle_upgraded env a r).tcpTarget = some a)
    ∧ ((handle_upgraded env a r).branch = TunnelBranch.rawTunnel →
        env.tcpConnect a = .ok () → (handle_upgraded env a r).copied = true) := by
  rw [handle_upgraded_peek_ok env a r hup hlen]
  refine ⟨?_, ?_, ?_, ?_, ?_, ?_, ?_⟩
  · rw [classify_branch]
    split_ifs with h1 h2 <;> simp_all
  · rw [classify_branch]
    split_ifs with h1 h2 <;> simp_all
  · rw [classify_branch]
    split_ifs with h1 h2 <;> simp_all
  · intro h1
    exact classify_scheme_http env a r _ _ h1
  · intro h1 h2 hg ht
    exact classify_scheme_https env a r _ _ h1 h2 hg ht
  · intro hb
    rw [classify_branch] at hb
    rw [classify_tcpTarget]
    split_ifs at hb ⊢
    simp_all
  · intro hb hc
    rw [classify_branch] at hb
    by_cases h1 : env.clientBytes.take 4 = strBytes "GET "
    · simp [h1] at hb
    · by_cases h2 : (env.clientBytes.take 4).take 2 = [0x16, 0x03]
      · simp [h1, h2] at hb
      · exact classify_copied env a r _ _ h1 h2 hc

/-- Witness for C1: an opaque 4-byte window is classified as the raw
tunnel, whose TCP target is the tunnel authority and whose copy ran. -/
theorem connect_peek_classification_witness :
    (handle_upgraded envRaw "smtp.test:25" r0).branch = TunnelBranch.rawTunnel
    ∧ (handle_upgraded envRaw "smtp.test:25" r0).tcpTarget = some "smtp.test:25"
    ∧ (handle_upgraded envRaw "smtp.test:25" r0).copied = true := by
  have h := connect_peek_classification envRaw "smtp.test:25" r0 rfl (by decide)
  have hb : (handle_upgraded envRaw "smtp.test:25" r0).branch = TunnelBranch.rawTunnel :=
    h.2.2.1.mpr (by decide)
  exact ⟨hb, h.2.2.2.2.2.1 hb, h.2.2.2.2.2.2 hb rfl⟩

/-- Counterexample to C4: a client that closes the tunnel after sending
only three bytes makes the peek fail with a recorded read error, so no
classification branch is reached. -/
theorem short_peek_counterexample :
    (handle_upgraded envShort "h:80" r0).branch = TunnelBranch.peekFailed
    ∧ (handle_upgraded envShort "h:80" r0).recorder.traffic.errors =
        ["Failed to read from upgraded connection: early eof"]
    ∧ (handle_upgraded envShort "h:80" r0).rewound = none := by
  decide

/-- C4 as amended: the peek is an exact 4-byte read.  When fewer than
four bytes arrive before the client closes, the read fails, a read
error is recorded, and the tunnel aborts without classification; when
four bytes are available, classification is reached and the rewound
stream restores the full client byte sequence. -/
theorem peek_read_exact_amended (env : TunnelEnv) (a : String) (r : Recorder)
    (hup : env.upgrade = Except.ok ()) :
    (env.clientBytes.length < 4 →
        handle_upgraded env a r =
          { branch := .peekFailed,
            recorder := r.add_error "Failed to read from upgraded connection: early eof" })
    ∧ (4 ≤ env.clientBytes.length →
        ((handle_upgraded env a r).rewound = some env.clientBytes
          ∧ (handle_upgraded env a r).branch ≠ TunnelBranch.peekFailed
          ∧ (handle_upgraded env a r).branch ≠ TunnelBranch.upgradeFailed)) := by
  constructor
  · intro h
    exact handle_upgraded_peek_short env a r hup h
  · intro h
    rw [handle_upgraded_peek_ok env a r hup h]
    refine ⟨?_, ?_, ?_⟩
    · rw [classify_rewound]
      simp [Rewind.new_buffered]
    · rw [classify_branch]
      split_ifs <;> simp
    · rw [classify_branch]
      split_ifs <;> simp

/-- Witness for C4 (amended): the three-byte client aborts with the read
error, and a four-byte client reaches classification with the stream
rewound. -/
theorem peek_read_exact_amended_witness :
    handle_upgraded envShort "h:81" r0 =
      { branch := .peekFailed,
        recorder := r0.add_error "Failed to read from upgraded connection: early eof" }
    ∧ (handle_upgraded envRaw "h:81" r0).rewound = some [5, 0, 0, 0] := by
  have h1 := (peek_read_exact_amended envShort "h:81" r0 rfl).1 (by decide)
  have h2 := ((peek_read_exact_amended envRaw "h:81" r0 rfl).2 (by decide)).1
  exact ⟨h1, h2⟩

/-- Counterexample to C9: in the plaintext-HTTP branch a serve error
whose text is exactly the connection-shutdown message is still recorded
on the transaction record. -/
theorem shutdown_demotion_counterexample :
    (handle_upgraded envGetShutdown "h:80" r0).branch = TunnelBranch.httpServe
    ∧ (handle_upgraded envGetShutdown "h:80" r0).recorder.traffic.errors =
        ["Websocket connect error: error shutting down connection"] := by
  decide

/-- C9 as amended: only the TLS-intercept branch demotes serve errors
whose text starts with the connection-shutdown message (recording every
other serve error); the plaintext-HTTP branch records every serve
error, the shutdown message included. -/
theorem shutdown_demotion_amended (env : TunnelEnv) (a : String) (r : Recorder)
    (e : String) (hup : env.upgrade = Except.ok ())
    (hlen : 4 ≤ env.clientBytes.length) :
    (env.clientBytes.take 4 = strBytes "GET " → env.serveHttp = .error e →
        (handle_upgraded env a r).recorder =
          r.add_error ("Websocket connect error: " ++ e))
    ∧ (env.clientBytes.take 4 ≠ strBytes "GET " →
        (env.clientBytes.take 4).take 2 = [0x16, 0x03] →
        env.genServerConfig a = .ok () → env.tlsAccept = .ok () →
        env.serveHttps = .error e →
        ((strStarts e "error shutting down connection" = true →
            (handle_upgraded env a r).recorder = r)
          ∧ (strStarts e "error shutting down connection" = false →
            (handle_upgraded env a r).recorder =
              r.add_error ("HTTPS connect error: " ++ e)))) := by
  rw [handle_upgraded_peek_ok env a r hup hlen]
  constructor
  · intro h1 hs
    simp [classify_and_run, h1, hs]
  · intro h1 h2 hg ht hs
    constructor
    · intro hshut
      simp [classify_and_run, h1, h2, hg, ht, hs, hshut]
    · intro hshut
      simp [classify_and_run, h1, h2, hg, ht, hs, hshut]

/-- Witness for C9 (amended): the TLS branch drops the shutdown error
while the plaintext branch records it. -/
theorem shutdown_demotion_amended_witness :
    (handle_upgraded envTlsShutdown "h:80" r0).recorder = r0
    ∧ (handle_upgraded envGetShutdown "h:82" r0).recorder =
        r0.add_error "Websocket connect error: error shutting down connection" := by
  have h1 :=
    ((shutdown_demotion_amended envTlsShutdown "h:80" r0
        "error shutting down connection" rfl (by decide)).2
      (by decide) (by decide) rfl rfl rfl).1 (by decide)
  have h2 :=
    (shutdown_demotion_amended envGetShutdown "h:82" r0
        "error shutting down connection" rfl (by decide)).1 (by decide) rfl
  exact ⟨h1, h2⟩

/-- The forwarding tail reports the URL it was given as the upstream
target. -/
theorem handle_forward_url (cfg : ServerCfg) (st : State) (r : Recorder)
    (req : Req) (url : String) (upstream : Except String UpstreamResult) :
    (handle_forward cfg st r req url upstream).url = url := by
  unfold handle_forward
  repeat' split
  all_goals rfl

/-- The forwarding tail always finalizes exactly one record, whose URI
and method are the ones the recorder was created with. -/
theorem handle_forward_stores (cfg : ServerCfg) (st : State) (r : Recorder)
    (req : Req) (url : String) (upstream : Except String UpstreamResult) :
    ∃ t, (handle_forward cfg st r req url upstream).st = st.add_trafic t
      ∧ t.uri = r.traffic.uri ∧ t.method = r.traffic.method := by
  unfold handle_forward
  repeat' split
  all_goals exact ⟨_, rfl, rfl, rfl⟩

/-- C2: for every forwarded request whose upstream response body is
collected in full, the downstream response carries exactly the raw
upstream body bytes (and the upstream status), whatever the codecs and
the content encoding — recording works on a separate buffered copy. -/
theorem forward_body_passthrough (cfg : ServerCfg) (st : State) (r : Recorder)
    (req : Req) (url : String) (u : UpstreamResult) (rb b : ByteSeq)
    (hreq : req.body = Except.ok rb) (hu : u.body = Except.ok b) :
    (handle_forward cfg st r req url (.ok u)).res.body = b
    ∧ (handle_forward cfg st r req url (.ok u)).res.status = u.status := by
  simp only [handle_forward, hreq]
  repeat' split
  all_goals simp_all

/-- Witness for C2: a gzip-encoded upstream body whose decoder answers
different bytes is still returned downstream unchanged, while the
stored record holds the decoded copy. -/
theorem forward_body_passthrough_witness :
    (handle_forward cfgGz {} (Recorder.new "http://x/" "GET")
        { uri := "http://x/", method := "GET" } "http://x/"
        (.ok ⟨200, [("content-encoding", "gzip")], .ok [1, 2, 3]⟩)).res.body = [1, 2, 3]
    ∧ (handle_forward cfgGz {} (Recorder.new "http://x/" "GET")
        { uri := "http://x/", method := "GET" } "http://x/"
        (.ok ⟨200, [("content-encoding", "gzip")], .ok [1, 2, 3]⟩)).st.traffics.map
          Traffic.res_body = [some [9]] := by
  refine ⟨(forward_body_passthrough cfgGz {} (Recorder.new "http://x/" "GET")
      { uri := "http://x/", method := "GET" } "http://x/"
      ⟨200, [("content-encoding", "gzip")], .ok [1, 2, 3]⟩ [] [1, 2, 3] rfl rfl).1, ?_⟩
  decide

/-- Counterexample to C3: with reverse-proxy base `http://example.test`,
a plaintext `GET /hello` forwarded to the composed URL
`http://example.test/hello` is stored — and listed — with the original
origin-form request-target `/hello` as its URI, not the composed
absolute URL. -/
theorem reverse_record_uri_counterexample :
    (handle cfgBase {} { uri := "/hello", method := "GET" }
        (.ok ⟨200, [], .ok (strBytes "hi")⟩)).forwardUrl = some "http://example.test/hello"
    ∧ ((handle cfgBase {} { uri := "/hello", method := "GET" }
        (.ok ⟨200, [], .ok (strBytes "hi")⟩)).stateOf.list.map TrafficHead.uri = ["/hello"])
    ∧ "/hello" ≠ "http://example.test/hello" := by
  decide

/-- C3 as amended: for a reverse-proxied origin-form request the
composed absolute URL (base plus path-and-query) is what the proxy
forwards to, but the stored record keeps the original origin-form
request-target as its URI. -/
theorem reverse_record_uri_amended (cfg : ServerCfg) (st : State) (req : Req)
    (upstream : Except String UpstreamResult) (base : String)
    (hbase : cfg.reverse_proxy_url = some base)
    (h1 : strStarts req.uri "/" = true)
    (h2 : strStarts req.uri WEBUI_ROOT = false)
    (h3 : req.uri ≠ "/")
    (h4 : strStarts (pathOf (base ++ req.uri)) CERT_SITE_URL = false)
    (h5 : strStarts (pathOf (base ++ req.uri)) WEBUI_ROOT = false)
    (h6 : req.method ≠ "CONNECT") :
    (handle cfg st req upstream).forwardUrl = some (base ++ req.uri)
    ∧ ∃ t, (handle cfg st req upstream).stateOf = st.add_trafic t
        ∧ t.uri = req.uri ∧ t.method = req.method := by
  have hres : resolve_url cfg.reverse_proxy_url req.uri = .ok (base ++ req.uri) := by
    unfold resolve_url
    rw [hbase]
    simp [h1, h2, h3]
  have hh : handle cfg st req upstream =
      .forward (handle_forward cfg st
        ((Recorder.new req.uri req.method).control_dump
          (cfg.is_match_title cfg.filters (req.method ++ " " ++ (base ++ req.uri))))
        req (base ++ req.uri) upstream) := by
    unfold handle
    rw [hres]
    simp [h4, h5, h6]
  rw [hh]
  constructor
  · rw [HandleResult.forwardUrl, handle_forward_url]
  · exact handle_forward_stores cfg st _ req (base ++ req.uri) upstream

/-- Witness for C3 (amended): the concrete spec scenario, with the
forwarded URL composed and the record keeping the origin-form target. -/
theorem reverse_record_uri_amended_witness :
    (handle cfgBase {} { uri := "/hello", method := "GET" }
        (.error "unreached")).forwardUrl = some "http://example.test/hello"
    ∧ ∃ t, (handle cfgBase {} { uri := "/hello", method := "GET" }
        (.error "unreached")).stateOf = State.add_trafic {} t
        ∧ t.uri = "/hello" ∧ t.method = "GET" :=
  reverse_record_uri_amended cfgBase {} { uri := "/hello", method := "GET" }
    (.error "unreached") "http://example.test" rfl (by decide) (by decide)
    (by decide) (by decide) (by decide) (by decide)

/-- Counterexample to C5: with no reverse-proxy base, an origin-form
`GET /foo` is answered `500` with an entirely empty body (no plain-text
error message), though the record carrying the error string is stored. -/
theorem no_reverse_body_counterexample :
    handle cfgNone {} { uri := "/foo", method := "GET" } (.error "unreached") =
      .response { status := 500 }
        { traffics := [{ uri := "/foo", method := "GET",
                         errors := ["No reserver proxy url"] }] }
    ∧ ({ status := 500 } : Response).body = []
    ∧ strBytes "No reserver proxy url" ≠ [] := by
  decide

/-- C5 as amended: an origin-form non-UI request with no reverse-proxy
base configured yields a `500` response with an empty body, and a record
carrying the error string `"No reserver proxy url"` is finalized into
the store. -/
theorem no_reverse_amended (cfg : ServerCfg) (st : State) (req : Req)
    (upstream : Except String UpstreamResult)
    (h1 : strStarts req.uri "/" = true)
    (h2 : strStarts req.uri WEBUI_ROOT = false)
    (h0 : cfg.reverse_proxy_url = none) :
    handle cfg st req upstream =
      .response { status := 500 }
        (st.add_trafic
          { uri := req.uri, method := req.method, errors := ["No reserver proxy url"] }) := by
  have hres : resolve_url cfg.reverse_proxy_url req.uri = .noReverse := by
    unfold resolve_url
    rw [h0]
    simp [h1, h2]
  unfold handle
  rw [hres]
  rfl

/-- Witness for C5 (amended): a concrete origin-form request with no
base configured. -/
theorem no_reverse_amended_witness :
    handle cfgNone {} { uri := "/bar", method := "POST" } (.error "unreached") =
      .response { status := 500 }
        (State.add_trafic {}
          { uri := "/bar", method := "POST", errors := ["No reserver proxy url"] }) :=
  no_reverse_amended cfgNone {} { uri := "/bar", method := "POST" }
    (.error "unreached") (by decide) (by decide) rfl

/-- Counterexample to C6: a forwarded request whose upstream body is
empty stores a record whose response-body field is absent (`none`), not
the empty byte string. -/
theorem empty_body_record_counterexample :
    ((handle cfgBase {} { uri := "http://up.test/e", method := "GET" }
        (.ok ⟨200, [], .ok []⟩)).stateOf.traffics.map Traffic.res_body = [none])
    ∧ (none : Option ByteSeq) ≠ some [] := by
  decide

/-- C6 as amended: an empty upstream response body leaves the record's
response-body field absent; only a non-empty body is recorded (as the
decompressed bytes, falling back to the raw bytes). -/
theorem empty_body_record_amended (cfg : ServerCfg) (st : State) (r : Recorder)
    (req : Req) (url : String) (u : UpstreamResult) (rb b : ByteSeq)
    (hr : r.traffic.res_body = none)
    (hreq : req.body = Except.ok rb) (hu : u.body = Except.ok b) :
    (b = [] →
        ∃ t, (handle_forward cfg st r req url (.ok u)).st = st.add_trafic t
          ∧ t.res_body = none)
    ∧ (b ≠ [] →
        ∃ t, (handle_forward cfg st r req url (.ok u)).st = st.add_trafic t
          ∧ t.res_body =
              some ((decompress cfg.codecs b (contentEncodingOf u.headers)).getD b)) := by
  constructor
  · intro hb
    subst hb
    simp only [handle_forward, hreq, hu]
    repeat' split
    all_goals first
      | exact ⟨_, rfl, hr⟩
      | simp_all
  · intro hb
    simp only [handle_forward, hreq, hu]
    repeat' split
    all_goals exact ⟨_, rfl, rfl⟩

/-- Witness for C6 (amended): an empty body leaves the field absent; a
non-empty body is recorded decompressed. -/
theorem empty_body_record_amended_witness :
    (∃ t, (handle_forward cfgGz {} (Recorder.new "http://x/e" "GET")
        { uri := "http://x/e", method := "GET" } "http://x/e"
        (.ok ⟨200, [], .ok []⟩)).st = State.add_trafic {} t ∧ t.res_body = none)
    ∧ (∃ t, (handle_forward cfgGz {} (Recorder.new "http://x/e" "GET")
        { uri := "http://x/e", method := "GET" } "http://x/e"
        (.ok ⟨200, [("content-encoding", "gzip")], .ok [1]⟩)).st = State.add_trafic {} t
        ∧ t.res_body = some ((decompress cfgGz.codecs [1]
            (contentEncodingOf [("content-encoding", "gzip")])).getD [1])) :=
  ⟨(empty_body_record_amended cfgGz {} (Recorder.new "http://x/e" "GET")
      { uri := "http://x/e", method := "GET" } "http://x/e"
      ⟨200, [], .ok []⟩ [] [] rfl rfl rfl).1 rfl,
   (empty_body_record_amended cfgGz {} (Recorder.new "http://x/e" "GET")
      { uri := "http://x/e", method := "GET" } "http://x/e"
      ⟨200, [("content-encoding", "gzip")], .ok [1]⟩ [] [1] rfl rfl rfl).2 (by decide)⟩

/-- C7: `decompress` answers a decoded body only for the labels
`gzip`, `deflate` and `br`; any other label (the empty one included)
yields not-applicable, as does a recognized label whose decoder rejects
its (truncated or malformed) input — and on not-applicable the caller's
fallback keeps the original bytes. -/
theorem decompress_labels (c : Codecs) (data v : ByteSeq) (enc e : String) :
    (enc ≠ "deflate" → enc ≠ "gzip" → enc ≠ "br" → decompress c data enc = none)
    ∧ (c.gzip data = .error e → decompress c data "gzip" = none)
    ∧ (c.deflate data = .error e → decompress c data "deflate" = none)
    ∧ (c.br data = .error e → decompress c data "br" = none)
    ∧ (c.gzip data = .ok v → decompress c data "gzip" = some v)
    ∧ (c.deflate data = .ok v → decompress c data "deflate" = some v)
    ∧ (c.br data = .ok v → decompress c data "br" = some v)
    ∧ (decompress c data enc = none → (decompress c data enc).getD data = data) := by
  refine ⟨?_, ?_, ?_, ?_, ?_, ?_, ?_, ?_⟩
  · intro h1 h2 h3
    simp [decompress, h1, h2, h3]
  · intro h
    simp [decompress, h, Except.toOption]
  · intro h
    simp [decompress, h, Except.toOption]
  · intro h
    simp [decompress, h, Except.toOption]
  · intro h
    simp [decompress, h, Except.toOption]
  · intro h
    simp [decompress, h, Except.toOption]
  · intro h
    simp [decompress, h, Except.toOption]
  · intro h
    simp [h]

/-- Witness for C7: a failing gzip decode, an unrecognized label, a
successful brotli decode, and the raw-bytes fallback. -/
theorem decompress_labels_witness :
    decompress badCodecs [31, 139] "gzip" = none
    ∧ decompress badCodecs [0] "identity" = none
    ∧ decompress badCodecs [0] "br" = some [104, 105]
    ∧ (decompress badCodecs [31, 139] "gzip").getD [31, 139] = [31, 139] := by
  have h := decompress_labels badCodecs [31, 139] [104, 105] "gzip" "truncated"
  have h2 := decompress_labels badCodecs [0] [104, 105] "identity" "truncated"
  have h3 := decompress_labels badCodecs [0] [104, 105] "br" "truncated"
  exact ⟨h.2.1 rfl, h2.1 (by decide) (by decide) (by decide),
    h3.2.2.2.2.2.2.1 rfl, h.2.2.2.2.2.2.2 (h.2.1 rfl)⟩

/-- C8: a CONNECT request whose target has no authority is answered
`400 Bad Request` with no tunnel spawned; one whose authority parses is
answered at once with the default `200` response (empty body) while the
tunnel state machine is spawned for that authority. -/
theorem connect_handshake (cfg : ServerCfg) (st : State) (req : Req)
    (upstream : Except String UpstreamResult)
    (hm : req.method = "CONNECT")
    (h1 : strStarts req.uri "/" = false)
    (h4 : strStarts (pathOf req.uri) CERT_SITE_URL = false)
    (h5 : strStarts (pathOf req.uri) WEBUI_ROOT = false) :
    (req.authority = none →
        handle cfg st req upstream = .connectRes { status := 400 } none st)
    ∧ (∀ a, req.authority = some a →
        ∃ r, handle cfg st req upstream = .connectRes {} (some (a, r)) st) := by
  have hres : resolve_url cfg.reverse_proxy_url req.uri = .ok req.uri := by
    unfold resolve_url
    simp [h1]
  constructor
  · intro ha
    unfold handle
    rw [hres]
    simp [h4, h5, hm, handle_connect, ha]
  · intro a ha
    refine ⟨((Recorder.new req.uri req.method).control_dump
        (cfg.is_match_title cfg.filters (req.method ++ " " ++ req.uri))).control_dump
        (!cfg.filters.isEmpty || !cfg.mime_filters.isEmpty), ?_⟩
    unfold handle
    rw [hres]
    simp [h4, h5, hm, handle_connect, ha]

/-- Witness for C8: a CONNECT with no parsed authority is refused with
`400`; one with an authority is answered `200`/empty and spawns the
tunnel for that authority. -/
theorem connect_handshake_witness :
    handle cfgNone {} { uri := "example.com:443", method := "CONNECT" }
        (.error "unreached") = .connectRes { status := 400 } none {}
    ∧ ∃ r, handle cfgNone {}
        { uri := "example.com:443", method := "CONNECT", authority := some "example.com:443" }
        (.error "unreached") = .connectRes {} (some ("example.com:443", r)) {} :=
  ⟨(connect_handshake cfgNone {} { uri := "example.com:443", method := "CONNECT" }
      (.error "unreached") rfl (by decide) (by decide) (by decide)).1 rfl,
   (connect_handshake cfgNone {}
      { uri := "example.com:443", method := "CONNECT", authority := some "example.com:443" }
      (.error "unreached") rfl (by decide) (by decide) (by decide)).2
     "example.com:443" rfl⟩

/-- C10: a traffic-detail id that does not parse as a number yields the
same plain `404` response as a well-formed id with no stored record —
never a distinct error. -/
theorem traffic_info_not_found (toJson : Traffic → String) (st : State)
    (id id2 : String) (n : Nat)
    (h1 : parse_u64 id = none) (h2 : parse_u64 id2 = some n)
    (h3 : st.get_traffic n = none) :
    handle_traffic_info toJson st id = { status := 404 }
    ∧ handle_traffic_info toJson st id2 = handle_traffic_info toJson st id := by
  have e1 : handle_traffic_info toJson st id = { status := 404 } := by
    unfold handle_traffic_info
    rw [h1]
    rfl
  have e2 : handle_traffic_info toJson st id2 = { status := 404 } := by
    unfold handle_traffic_info
    rw [h2]
    simp [h3]
  exact ⟨e1, by rw [e1, e2]⟩

/-- Witness for C10: the malformed id `"abc"` and the absent id `"5"`
produce the same `404`. -/
theorem traffic_info_not_found_witness :
    handle_traffic_info (fun _ => "") {} "abc" = { status := 404 }
    ∧ handle_traffic_info (fun _ => "") {} "5" =
        handle_traffic_info (fun _ => "") {} "abc" :=
  traffic_info_not_found (fun _ => "") {} "abc" "5" 5 (by decide) (by decide) (by decide)

example : parse_u64 "12" = some 12 := by decide
example : parse_u64 "abc" = none := by decide
example : parse_u64 "" = none := by decide
example : parse_u64 "+7" = some 7 := by decide
example : strStarts "/hello" "/" = true := by decide
example : pathOf "http://a/b?x=1" = "http://a/b" := by decide

end Forproxy
